import Mathlib

/-!
Shallow embedding of the client core of hlf-sdk-go (src/client/core.go):
the construction cascade NewCore and the cached per-channel topology
resolution Channel(name).  External collaborators (crypto-suite registry,
peer and orderer constructors, gRPC connection builder, discovery
backends) live outside src/ and are modelled as an explicit environment
of oracles (Ext); the value such a collaborator produces on success is
the canonical wrapper of its inputs, following the interface contracts
stated in the specification.
-/

namespace Hlf

/-- Modelled from the spec: config.TlsConfig (outside src), the TLS
settings attached to a host address; opaque to the core, compared only
for equality. -/
structure TlsConfig where
  tag : Nat := 0
deriving DecidableEq

/-- config.ConnectionConfig, restricted to the two fields core.go reads
and writes: host and TLS settings. -/
structure ConnectionConfig where
  host : String
  tls : TlsConfig := {}
deriving DecidableEq

/-- api.HostAddress: network address plus TLS settings. -/
structure HostAddress where
  address : String
  tlsSettings : TlsConfig := {}
deriving DecidableEq

/-- api.HostEndpoint: an organization identifier and its addresses. -/
structure HostEndpoint where
  mspID : String
  hostAddresses : List HostAddress
deriving DecidableEq

/-- Error values flowing through the embedded fragment.  Construction of
message strings by fmt/errors is kept structurally: wrapping keeps the
context message and the cause, dedicated constructors keep the data the
source interpolates into the message. -/
inductive Err where
  | emptyConfig : Err
  | noIdentity : Err
  | endorserInit (msp : String) (e : Err) : Err
  | unknownDiscoveryType (t : String) : Err
  | extErr (s : String) : Err
  | wrapped (msg : String) (e : Err) : Err
deriving DecidableEq

/-- pkg/errors.Wrap: annotates a non-nil error and returns nil when the
wrapped error is nil. -/
def wrapOpt : Option Err → String → Option Err
  | none, _ => none
  | some e, msg => some (.wrapped msg e)

/-- A Go runtime panic observable in the embedded fragment: calling a
method on a nil interface value. -/
inductive GoPanic where
  | nilPointerDereference : GoPanic
deriving DecidableEq

/-- Result of a successful DiscoveryProvider.Channel lookup
(api.ChannelDiscoverer): the channel name and the orderer endpoints. -/
structure ChannelDiscovererResult where
  channelName : String
  orderers : List HostEndpoint
deriving DecidableEq

/-- api.DiscoveryProvider, restricted to the operations the embedded
code uses: the per-channel lookup, and the local-peers query used by the
gossip branch of NewCore (LocalPeers followed by Peers, flattened to the
returned endpoint list). -/
structure DiscoveryProvider where
  channelLookup : String → Except Err ChannelDiscovererResult
  localPeers : Except Err (List HostEndpoint)

/-- Modelled from the spec: the connection builder
(util.NewGRPCConnectionFromConfigs, outside src) returns one logical
connection multiplexing the given descriptors; on success the connection
is the canonical wrapper of its descriptor list. -/
structure Conn where
  cfgs : List ConnectionConfig
deriving DecidableEq

/-- Modelled from the spec: orderer.NewFromGRPC (outside src) wraps a
connection as an ordering-service handle.  The id field models Go object
identity: each successful construction allocates a fresh object whose id
is the current allocation counter, hence distinct from every orderer
that already existed. -/
structure Orderer where
  id : Nat
  conn : Option Conn
deriving DecidableEq

/-- An api.CryptoSuite implementation, opaque to the core. -/
structure CryptoSuite where
  tag : Nat
deriving DecidableEq

/-- An msp.SigningIdentity, opaque to the core. -/
structure SigningIdentity where
  tag : Nat
deriving DecidableEq

/-- api.Identity: the raw identity handed to NewCore;
GetSigningIdentity binds it to the crypto suite interface value the core
holds at that point. -/
structure Identity where
  getSigningIdentity : Option CryptoSuite → SigningIdentity

/-- A peer connection handle (peer.New, outside src), canonical wrapper
of its connection descriptor. -/
structure Peer where
  cfg : ConnectionConfig
deriving DecidableEq

/-- The peer pool observed through its registrations: Add appends an
(orgID, peer) entry.  The fixed selection strategy argument
(api.StrategyGRPC with a 5 second timeout) parameterizes selection only
and carries no data the embedded code inspects. -/
abbrev PeerPool := List (String × Peer)

abbrev Bytes := List Nat

/-- config.TLSCertsMap, as consumed through discovery.NewTLSCertsMapper. -/
abbrev TLSCertsMap := List (String × TlsConfig)

/-- Options of a crypto-suite configuration, opaque to the core. -/
structure CryptoOpts where
  tag : Nat := 0
deriving DecidableEq

/-- Options of a discovery configuration, opaque to the core. -/
structure DiscoveryOpts where
  tag : Nat := 0
deriving DecidableEq

/-- config.CryptoConfig: suite type name plus options. -/
structure CryptoConfig where
  type : String
  options : CryptoOpts := {}
deriving DecidableEq

/-- config.DiscoveryConfig: discovery type tag, optional bootstrap
connection, backend options. -/
structure DiscoveryConfig where
  type : String := ""
  connection : Option ConnectionConfig := none
  options : DiscoveryOpts := {}
deriving DecidableEq

/-- One configured MSP: its name and endorser connection descriptors. -/
structure MSPConfig where
  name : String
  endorsers : List ConnectionConfig := []
deriving DecidableEq

/-- config.Config, restricted to the fields core.go reads. -/
structure Config where
  crypto : CryptoConfig
  discovery : DiscoveryConfig := {}
  msp : List MSPConfig := []
  orderers : List ConnectionConfig := []
  tlsCertsMap : TLSCertsMap := []
deriving DecidableEq

/-- api.CCFetcher: either the default local Go-chaincode fetcher or one
supplied by an option. -/
inductive Fetcher where
  | localGolang : Fetcher
  | other (tag : Nat) : Fetcher
deriving DecidableEq

/-- Environment of external collaborators, modelled as oracles.  The
failure oracles return the error the external call would produce, or
none for success; on success the produced value is the canonical wrapper
of the inputs. -/
structure Ext where
  getSuite : String → CryptoOpts → Except Err CryptoSuite
  peerNewErr : ConnectionConfig → Option Err
  poolAddErr : String → Peer → Option Err
  grpcConnErr : List ConnectionConfig → Option Err
  ordFromConnErr : Option Conn → Option Err
  localProvider : DiscoveryOpts → TLSCertsMap → Except Err DiscoveryProvider
  gossipProvider : ConnectionConfig → Bytes → Except Err DiscoveryProvider
  serialize : Option SigningIdentity → Except Err Bytes

/-- The Channel handle (channel.NewCore, outside src), modelled from the
spec as the record of the values core.Channel passes to it; the logger
argument is omitted. -/
structure ChannelHandle where
  mspId : String
  name : String
  peerPool : Option PeerPool
  orderer : Option Orderer
  discoveryProvider : Option DiscoveryProvider
  identity : Option SigningIdentity
  fabricV2 : Bool

/-- The core struct (src/client/core.go), restricted to the fields the
embedded methods use.  ctx and logger are reduced to presence flags; the
chaincode cache and its lock are omitted (no claim concerns them); the
mutexes are represented by the sequential semantics of the operations
they serialize.  queries and connBuilds are ghost instrumentation
recording, in order, the channel names looked up on the discovery
provider and the descriptor lists passed to the connection builder.
nextId is the allocation counter backing orderer object identity. -/
structure CoreState where
  mspId : String
  identity : Option SigningIdentity := none
  config : Option Config := none
  peerPool : Option PeerPool := none
  orderer : Option Orderer := none
  discoveryProvider : Option DiscoveryProvider := none
  channels : List (String × ChannelHandle) := []
  cs : Option CryptoSuite := none
  fetcher : Option Fetcher := none
  fabricV2 : Bool := false
  hasCtx : Bool := false
  hasLogger : Bool := false
  nextId : Nat := 0
  queries : List String := []
  connBuilds : List (List ConnectionConfig) := []

/-- Modelled from the spec: discovery.LocalConfigServiceDiscoveryType,
the tag selecting the static (local-config) discovery backend. -/
def localConfigServiceDiscoveryType : String := "local"

/-- Modelled from the spec: discovery.GossipServiceDiscoveryType, the
tag selecting the gossip discovery backend. -/
def gossipServiceDiscoveryType : String := "gossip"

/-- Modelled from the spec: ecdsa.DefaultConfig, the built-in default
(ECDSA) crypto configuration substituted when the configured crypto type
is empty. -/
def ecdsaDefaultConfig : CryptoConfig := { type := "ecdsa" }

/-- Modelled from the spec: the TLS-certificate mapper built from
configuration resolves the TLS settings to use for a host address. -/
def tlsConfigForAddress (m : TLSCertsMap) (addr : String) : TlsConfig :=
  (m.lookup addr).getD {}

/-- The descriptor-flattening loop of core.Channel: for every discovered
orderer endpoint with a non-empty address list, append one
(address, TLS) connection descriptor per address, in order. -/
def flattenEndpoints : List HostEndpoint → List ConnectionConfig
  | [] => []
  | ep :: rest =>
    (if 0 < ep.hostAddresses.length then
      ep.hostAddresses.map (fun ha => { host := ha.address, tls := ha.tlsSettings })
    else []) ++ flattenEndpoints rest

/-- util.NewGRPCConnectionFromConfigs as seen from the core: record the
attempt (ghost), then either fail with the oracle error or return the
canonical connection over the descriptors. -/
def newGRPCConnectionFromConfigs (ext : Ext) (c : CoreState)
    (cfgs : List ConnectionConfig) : Except Err Conn × CoreState :=
  let c1 := { c with connBuilds := c.connBuilds ++ [cfgs] }
  match ext.grpcConnErr cfgs with
  | some e => (.error e, c1)
  | none => (.ok { cfgs := cfgs }, c1)

/-- orderer.NewFromGRPC as seen from the core: either fail with the
oracle error (yielding a nil orderer, as in Go convention) or allocate a
fresh orderer wrapping the given (possibly nil) connection. -/
def newFromGRPC (ext : Ext) (c : CoreState) (ordConn : Option Conn) :
    Except Err Orderer × CoreState :=
  match ext.ordFromConnErr ordConn with
  | some e => (.error e, c)
  | none => (.ok { id := c.nextId, conn := ordConn }, { c with nextId := c.nextId + 1 })

/-- The connection value core.Channel ends up passing to
orderer.NewFromGRPC: nil when the build over the descriptors failed, the
canonical connection otherwise. -/
def connOptOf (ext : Ext) (cfgs : List ConnectionConfig) : Option Conn :=
  match ext.grpcConnErr cfgs with
  | some _ => none
  | none => some { cfgs := cfgs }

/-- The discovery-driven part of core.Channel: query the provider for
the channel; on lookup error keep no custom orderer (the Go code only
logs); on success with a non-empty orderer endpoint list, build one
connection over the flattened descriptors (a failed build is only
logged, leaving a nil connection) and then construct the orderer from
that connection; a failed construction leaves no custom orderer. -/
def resolveCustomOrderer (ext : Ext) (c0 : CoreState) (dp : DiscoveryProvider)
    (name : String) : Option Orderer × CoreState :=
  let c := { c0 with queries := c0.queries ++ [name] }
  match dp.channelLookup name with
  | .error _ => (none, c)
  | .ok discChannel =>
    if 0 < discChannel.orderers.length then
      let r := newGRPCConnectionFromConfigs ext c (flattenEndpoints discChannel.orderers)
      let ordConn : Option Conn := match r.1 with
        | .error _ => none
        | .ok conn => some conn
      let r2 := newFromGRPC ext r.2 ordConn
      match r2.1 with
      | .error _ => (none, r2.2)
      | .ok o => (some o, r2.2)
    else (none, c)

/-- core.Channel: return the cached handle when present; otherwise the
source calls c.discoveryProvider.Channel, which in Go panics when the
provider interface is nil; otherwise resolve a possible channel-specific
orderer, fall back to the default orderer of the core when none was produced,
build the handle from the fields of the core and cache it under the name. -/
def channelFn (ext : Ext) (c : CoreState) (name : String) :
    Except GoPanic (ChannelHandle × CoreState) :=
  match c.channels.lookup name with
  | some ch => .ok (ch, c)
  | none =>
    match c.discoveryProvider with
    | none => .error .nilPointerDereference
    | some dp =>
      let r := resolveCustomOrderer ext c dp name
      let ord : Option Orderer := match r.1 with
        | some o => some o
        | none => c.orderer
      let ch : ChannelHandle :=
        { mspId := c.mspId, name := name, peerPool := c.peerPool, orderer := ord,
          discoveryProvider := c.discoveryProvider, identity := c.identity,
          fabricV2 := c.fabricV2 }
      .ok (ch, { r.2 with channels := (name, ch) :: r.2.channels })

/-- The bound orderer of the handle returned by core.Channel. -/
def channelResultOrderer (ext : Ext) (c : CoreState) (name : String) :
    Except GoPanic (Option Orderer) :=
  (channelFn ext c name).map fun p => p.1.orderer

/-- The ghost record of connection-build attempts after a core.Channel
call. -/
def channelResultConnBuilds (ext : Ext) (c : CoreState) (name : String) :
    Except GoPanic (List (List ConnectionConfig)) :=
  (channelFn ext c name).map fun p => p.2.connBuilds

/-- A sequence of core.Channel calls, threading the core state. -/
def channelCalls (ext : Ext) : CoreState → List String → Except GoPanic CoreState
  | c, [] => .ok c
  | c, name :: rest =>
    match channelFn ext c name with
    | .error p => .error p
    | .ok (_, c1) => channelCalls ext c1 rest

/-- A functional construction option (CoreOpt): may set fields of the
core under construction or fail. -/
abbrev CoreOpt := CoreState → Except Err CoreState

/-- The option-application loop of NewCore: options run strictly in
order; the first failure stops the loop. -/
def applyOpts : List CoreOpt → CoreState → Except Err CoreState
  | [], c => .ok c
  | opt :: rest, c =>
    match opt c with
    | .error e => .error e
    | .ok c1 => applyOpts rest c1

/-- The core literal NewCore starts from: mspId plus freshly allocated
empty caches; every other field is the Go zero value. -/
def initialCore (mspId : String) : CoreState :=
  { mspId := mspId, channels := [] }

/-- Crypto-suite stage of NewCore: when no suite was pre-supplied,
configuration is mandatory; an empty configured crypto type is replaced
by the built-in ECDSA default (mutating the held config); then the suite
is looked up in the registry by type name. -/
def initCrypto (ext : Ext) (c : CoreState) : Except Err CoreState :=
  match c.cs with
  | some _ => .ok c
  | none =>
    match c.config with
    | none => .error .emptyConfig
    | some cfg =>
      let cfg1 := if cfg.crypto.type = "" then { cfg with crypto := ecdsaDefaultConfig } else cfg
      match ext.getSuite cfg1.crypto.type cfg1.crypto.options with
      | .error e => .error (.wrapped "failed to initialize crypto suite" e)
      | .ok suite => .ok { c with config := some cfg1, cs := some suite }

/-- One endorser-registration loop: build each peer from its descriptor
and register it in the pool under the given MSP name. -/
def addPeers (ext : Ext) (pool : PeerPool) (mspName : String) :
    List ConnectionConfig → Except Err PeerPool
  | [] => .ok pool
  | cfg :: rest =>
    match ext.peerNewErr cfg with
    | some e => .error (.endorserInit mspName e)
    | none =>
      match ext.poolAddErr mspName { cfg := cfg } with
      | some e => .error (.wrapped "failed to add peer to pool" e)
      | none => addPeers ext (pool ++ [(mspName, { cfg := cfg })]) mspName rest

/-- The outer loop of the peer-pool stage: register every configured
MSP endorser set. -/
def addEndorsers (ext : Ext) (pool : PeerPool) : List MSPConfig → Except Err PeerPool
  | [] => .ok pool
  | mspCfg :: rest =>
    match addPeers ext pool mspCfg.name mspCfg.endorsers with
    | .error e => .error e
    | .ok pool1 => addEndorsers ext pool1 rest

/-- Peer-pool stage of NewCore: when no pool was pre-supplied,
configuration is mandatory; a fresh pool is populated from every
endorser descriptors of every configured MSP. -/
def initPeerPool (ext : Ext) (c : CoreState) : Except Err CoreState :=
  match c.peerPool with
  | some _ => .ok c
  | none =>
    match c.config with
    | none => .error .emptyConfig
    | some cfg =>
      match addEndorsers ext [] cfg.msp with
      | .error e => .error e
      | .ok pool => .ok { c with peerPool := some pool }

/-- The local-peer registration loop of the gossip branch: for every
discovered local peer and each of its addresses, build a peer from an
(address, TLS) descriptor and add it to the pool under the MSP id of that
peer. -/
def addLocalPeers (ext : Ext) (pool : PeerPool) : List HostEndpoint → Except Err PeerPool
  | [] => .ok pool
  | ep :: rest =>
    match addPeers ext pool ep.mspID
        (ep.hostAddresses.map fun ha => { host := ha.address, tls := ha.tlsSettings }) with
    | .error e => .error e
    | .ok pool1 => addLocalPeers ext pool1 rest

/-- Discovery stage of NewCore: runs only when no provider was
pre-supplied and configuration is present; branches on the configured
discovery type.  errv is the value of the function-level err variable at
entry to this stage — none on every path that reaches it, because every
earlier assignment of a non-nil err returned immediately — and the
missing-connection check of the gossip branch reproduces the source
literally: it returns errors.Wrap(err, msg), which is nil when err is
nil.  The peer-pool access of the source in the gossip branch cannot see a
nil pool because the peer-pool stage always ran first; getD [] covers
the vacuous case. -/
def initDiscovery (ext : Ext) (c : CoreState) (errv : Option Err) :
    Except (Option Err) CoreState :=
  match c.discoveryProvider with
  | some _ => .ok c
  | none =>
    match c.config with
    | none => .ok c
    | some cfg =>
      if cfg.discovery.type = localConfigServiceDiscoveryType then
        match ext.localProvider cfg.discovery.options cfg.tlsCertsMap with
        | .error e => .error (some (.wrapped "failed to initialize discovery provider" e))
        | .ok dp => .ok { c with discoveryProvider := some dp }
      else if cfg.discovery.type = gossipServiceDiscoveryType then
        match cfg.discovery.connection with
        | none => .error (wrapOpt errv "discovery connection config was not provided. configure discovery.connection")
        | some conn =>
          match ext.serialize c.identity with
          | .error e => .error (some (.wrapped "failed serialize current identity" e))
          | .ok clientIdentity =>
            let conn1 := { conn with tls := tlsConfigForAddress cfg.tlsCertsMap conn.host }
            let cfg1 := { cfg with discovery := { cfg.discovery with connection := some conn1 } }
            let c1 := { c with config := some cfg1 }
            match ext.gossipProvider conn1 clientIdentity with
            | .error e => .error (some (.wrapped "failed to initialize discovery provider" e))
            | .ok dp =>
              match dp.localPeers with
              | .error e => .error (some (.wrapped "failed to fetch local peers" e))
              | .ok peers =>
                match addLocalPeers ext (c1.peerPool.getD []) peers with
                | .error e => .error (some e)
                | .ok pool => .ok { c1 with discoveryProvider := some dp, peerPool := some pool }
      else .error (some (.unknownDiscoveryType cfg.discovery.type))

/-- Orderer stage of NewCore: when no orderer was pre-supplied and the
configuration lists ordering endpoints, build one connection spanning
all of them and wrap it as the default orderer. -/
def initOrderer (ext : Ext) (c : CoreState) : Except Err CoreState :=
  match c.orderer with
  | some _ => .ok c
  | none =>
    match c.config with
    | none => .ok c
    | some cfg =>
      if 0 < cfg.orderers.length then
        let r := newGRPCConnectionFromConfigs ext c cfg.orderers
        match r.1 with
        | .error e => .error (.wrapped "failed to initialize orderer connection" e)
        | .ok conn =>
          let r2 := newFromGRPC ext r.2 (some conn)
          match r2.1 with
          | .error e => .error (.wrapped "failed to initialize orderer" e)
          | .ok o => .ok { r2.2 with orderer := some o }
      else .ok c

/-- Fetcher stage of NewCore: default to the local Go-chaincode fetcher
when none was supplied. -/
def initFetcher (c : CoreState) : CoreState :=
  match c.fetcher with
  | some _ => c
  | none => { c with fetcher := some .localGolang }

/-- NewCore (src/client/core.go): apply the options in order, then run
the defaulting cascade.  The result is the Go pair (core, err); note the
gossip missing-connection branch can yield (none, none).  The identity
nil-check sits after the crypto stage, exactly as in the source. -/
def newCore (ext : Ext) (mspId : String) (identity : Option Identity)
    (opts : List CoreOpt) : Option CoreState × Option Err :=
  match applyOpts opts (initialCore mspId) with
  | .error e => (none, some (.wrapped "failed to apply option" e))
  | .ok c0 =>
    let c1 := { c0 with hasCtx := true, hasLogger := true }
    match initCrypto ext c1 with
    | .error e => (none, some e)
    | .ok c2 =>
      match identity with
      | none => (none, some .noIdentity)
      | some ident =>
        let c3 := { c2 with identity := some (ident.getSigningIdentity c2.cs) }
        match initPeerPool ext c3 with
        | .error e => (none, some e)
        | .ok c4 =>
          match initDiscovery ext c4 none with
          | .error oe => (none, oe)
          | .ok c5 =>
            match initOrderer ext c5 with
            | .error e => (none, some e)
            | .ok c6 => (some (initFetcher c6), none)

/-- A discovery provider answering every channel lookup with zero
orderer endpoints and no local peers. -/
def dpEmpty : DiscoveryProvider :=
  { channelLookup := fun n => .ok { channelName := n, orderers := [] }
    localPeers := .ok [] }

/-- One discovered orderer endpoint with one address. -/
def epOne : HostEndpoint :=
  { mspID := "ordererMSP", hostAddresses := [{ address := "orderer0:7050" }] }

/-- A discovery provider answering every channel lookup with the single
endpoint epOne. -/
def dpOne : DiscoveryProvider :=
  { channelLookup := fun n => .ok { channelName := n, orderers := [epOne] }
    localPeers := .ok [] }

/-- One discovered orderer endpoint carrying no addresses at all. -/
def epNoAddr : HostEndpoint := { mspID := "ordererMSP", hostAddresses := [] }

/-- A discovery provider returning one orderer endpoint that has an
empty address list. -/
def dpNoAddr : DiscoveryProvider :=
  { channelLookup := fun n => .ok { channelName := n, orderers := [epNoAddr] }
    localPeers := .ok [] }

/-- A concrete raw identity. -/
def identW : Identity := { getSigningIdentity := fun _ => { tag := 7 } }

/-- A concrete environment in which every external call succeeds and the
registry only knows the ecdsa suite. -/
def extW : Ext :=
  { getSuite := fun t _ =>
      if t = "ecdsa" then .ok { tag := 1 } else .error (.extErr "unsupported crypto suite")
    peerNewErr := fun _ => none
    poolAddErr := fun _ _ => none
    grpcConnErr := fun _ => none
    ordFromConnErr := fun _ => none
    localProvider := fun _ _ => .ok dpEmpty
    gossipProvider := fun _ _ => .ok dpEmpty
    serialize := fun _ => .ok [] }

/-- extW with a failing gRPC connection builder. -/
def extBuildFails : Ext := { extW with grpcConnErr := fun _ => some (.extErr "dial failed") }

/-- extW with a failing orderer constructor. -/
def extOrdFails : Ext := { extW with ordFromConnErr := fun _ => some (.extErr "broadcast client failed") }

/-- A fully initialized core whose discovery provider is unset: the
state NewCore produces when configuration is absent and crypto suite and
peer pool were supplied by options. -/
def sNoDp : CoreState :=
  { mspId := "org", identity := some { tag := 7 }, cs := some { tag := 1 },
    peerPool := some [], orderer := some { id := 0, conn := none },
    fetcher := some .localGolang, hasCtx := true, hasLogger := true, nextId := 1 }

/-- sNoDp with the zero-endpoint discovery provider dpEmpty. -/
def sDpEmpty : CoreState := { sNoDp with discoveryProvider := some dpEmpty }

/-- sNoDp with the one-endpoint discovery provider dpOne. -/
def sDpOne : CoreState := { sNoDp with discoveryProvider := some dpOne }

/-- sNoDp with the empty-address-list discovery provider dpNoAddr. -/
def sDpNoAddr : CoreState := { sNoDp with discoveryProvider := some dpNoAddr }

/-- The handle the first Channel call on sDpEmpty produces. -/
def chW : ChannelHandle :=
  { mspId := "org", name := "mychannel", peerPool := some [],
    orderer := some { id := 0, conn := none }, discoveryProvider := some dpEmpty,
    identity := some { tag := 7 }, fabricV2 := false }

/-- The state after the first Channel call on sDpEmpty. -/
def sDpEmpty1 : CoreState :=
  { sDpEmpty with channels := [("mychannel", chW)], queries := ["mychannel"] }

/-- A config selecting the gossip discovery backend but carrying no
bootstrap connection. -/
def cfgGossipNoConn : Config :=
  { crypto := { type := "ecdsa" }, discovery := { type := "gossip" } }

/-- A config whose discovery type is left empty (absent). -/
def cfgEmptyDiscType : Config := { crypto := { type := "ecdsa" } }

/-- An option installing cfgGossipNoConn. -/
def optSetConfigGossip : CoreOpt := fun c => .ok { c with config := some cfgGossipNoConn }

/-- An option installing cfgEmptyDiscType. -/
def optSetConfigEmptyDisc : CoreOpt := fun c => .ok { c with config := some cfgEmptyDiscType }

/-- An option pre-supplying crypto suite and peer pool (no config). -/
def optPreset : CoreOpt := fun c => .ok { c with cs := some { tag := 1 }, peerPool := some [] }

/-- An option pre-supplying suite, pool, a discovery provider and an
empty-crypto-type config, as needed to exercise the crypto defaulting. -/
def optPresetEmptyCrypto : CoreOpt := fun c =>
  .ok { c with config := some { crypto := { type := "" } },
               discoveryProvider := some dpEmpty, peerPool := some [],
               orderer := some { id := 0, conn := none } }

/-- A failing option. -/
def optBoom : CoreOpt := fun _ => .error (.extErr "boom")

/-- A succeeding no-op option. -/
def optNop : CoreOpt := fun c => .ok c

/-- A failed discovery lookup yields no custom orderer and only records the
query. -/
theorem resolveCustomOrderer_lookup_error (ext : Ext) (c : CoreState) (dp : DiscoveryProvider)
    (n : String) (e : Err) (h : dp.channelLookup n = .error e) :
    resolveCustomOrderer ext c dp n = (none, { c with queries := c.queries ++ [n] }) := by
  simp [resolveCustomOrderer, h]

/-- A lookup returning zero orderer endpoints yields no custom orderer. -/
theorem resolveCustomOrderer_no_orderers (ext : Ext) (c : CoreState) (dp : DiscoveryProvider)
    (n : String) (d : ChannelDiscovererResult) (h : dp.channelLookup n = .ok d)
    (h2 : d.orderers = []) :
    resolveCustomOrderer ext c dp n = (none, { c with queries := c.queries ++ [n] }) := by
  simp [resolveCustomOrderer, h, h2]

/-- With a non-empty endpoint list the custom branch runs: the build attempt
is recorded, and the outcome is decided by the orderer construction over the
connection value actually passed. -/
theorem resolveCustomOrderer_branch (ext : Ext) (c : CoreState) (dp : DiscoveryProvider)
    (n : String) (d : ChannelDiscovererResult) (h : dp.channelLookup n = .ok d)
    (h2 : d.orderers ≠ []) :
    resolveCustomOrderer ext c dp n =
      match ext.ordFromConnErr (connOptOf ext (flattenEndpoints d.orderers)) with
      | some _ => (none, { c with queries := c.queries ++ [n],
                                  connBuilds := c.connBuilds ++ [flattenEndpoints d.orderers] })
      | none => (some { id := c.nextId, conn := connOptOf ext (flattenEndpoints d.orderers) },
                 { c with queries := c.queries ++ [n],
                          connBuilds := c.connBuilds ++ [flattenEndpoints d.orderers],
                          nextId := c.nextId + 1 }) := by
  have hlen : 0 < d.orderers.length := List.length_pos.mpr h2
  cases ho : ext.ordFromConnErr (connOptOf ext (flattenEndpoints d.orderers)) with
  | none =>
    cases hg : ext.grpcConnErr (flattenEndpoints d.orderers) with
    | none =>
      simp [connOptOf, hg] at ho
      simp [resolveCustomOrderer, h, hlen, newGRPCConnectionFromConfigs, newFromGRPC, hg, ho,
        connOptOf]
    | some e =>
      simp [connOptOf, hg] at ho
      simp [resolveCustomOrderer, h, hlen, newGRPCConnectionFromConfigs, newFromGRPC, hg, ho,
        connOptOf]
  | some e =>
    cases hg : ext.grpcConnErr (flattenEndpoints d.orderers) with
    | none =>
      simp [connOptOf, hg] at ho
      simp [resolveCustomOrderer, h, hlen, newGRPCConnectionFromConfigs, newFromGRPC, hg, ho,
        connOptOf]
    | some e2 =>
      simp [connOptOf, hg] at ho
      simp [resolveCustomOrderer, h, hlen, newGRPCConnectionFromConfigs, newFromGRPC, hg, ho,
        connOptOf]

/-- Resolution never touches the cache or the default orderer, and records
exactly one provider query. -/
theorem resolveCustomOrderer_state (ext : Ext) (c : CoreState) (dp : DiscoveryProvider)
    (n : String) :
    (resolveCustomOrderer ext c dp n).2.channels = c.channels ∧
    (resolveCustomOrderer ext c dp n).2.queries = c.queries ++ [n] ∧
    (resolveCustomOrderer ext c dp n).2.orderer = c.orderer := by
  cases h : dp.channelLookup n with
  | error e => rw [resolveCustomOrderer_lookup_error ext c dp n e h]; exact ⟨rfl, rfl, rfl⟩
  | ok d =>
    rcases eq_or_ne d.orderers [] with h2 | h2
    · rw [resolveCustomOrderer_no_orderers ext c dp n d h h2]; exact ⟨rfl, rfl, rfl⟩
    · rw [resolveCustomOrderer_branch ext c dp n d h h2]
      cases ho : ext.ordFromConnErr (connOptOf ext (flattenEndpoints d.orderers)) <;> simp

/-- The flattening loop produces the in-order concatenation of every
endpoint address list, converted to connection descriptors. -/
theorem flattenEndpoints_eq_flatten (l : List HostEndpoint) :
    flattenEndpoints l =
      (l.map fun ep => ep.hostAddresses.map
        fun ha => ({ host := ha.address, tls := ha.tlsSettings } : ConnectionConfig)).flatten := by
  induction l with
  | nil => rfl
  | cons ep rest ih =>
    by_cases h : 0 < ep.hostAddresses.length
    · simp [flattenEndpoints, h, ih]
    · have he : ep.hostAddresses = [] := by
        cases hh : ep.hostAddresses with
        | nil => rfl
        | cons a as => rw [hh] at h; simp at h
      simp [flattenEndpoints, he, ih]

/-- Endpoints with only empty address lists flatten to no descriptors. -/
theorem flattenEndpoints_nil_of_empty (l : List HostEndpoint)
    (h : ∀ ep ∈ l, ep.hostAddresses = []) : flattenEndpoints l = [] := by
  induction l with
  | nil => rfl
  | cons ep rest ih =>
    have he : ep.hostAddresses = [] := h ep (by simp)
    simp [flattenEndpoints, he]
    exact ih fun e hm => h e (by simp [hm])

/-- A cached name short-circuits: the stored handle is returned and the state
is untouched. -/
theorem channelFn_hit (ext : Ext) (c : CoreState) (n : String) (ch : ChannelHandle)
    (h : c.channels.lookup n = some ch) : channelFn ext c n = .ok (ch, c) := by
  simp [channelFn, h]

/-- Characterization of a cache miss with a provider present: the handle is
built from the core fields and the resolved orderer, and cached. -/
theorem channelFn_miss (ext : Ext) (c : CoreState) (n : String) (dp : DiscoveryProvider)
    (hfresh : c.channels.lookup n = none) (hdp : c.discoveryProvider = some dp) :
    channelFn ext c n = .ok
      ({ mspId := c.mspId, name := n, peerPool := c.peerPool,
         orderer := match (resolveCustomOrderer ext c dp n).1 with
           | some o => some o
           | none => c.orderer,
         discoveryProvider := c.discoveryProvider, identity := c.identity,
         fabricV2 := c.fabricV2 },
       { (resolveCustomOrderer ext c dp n).2 with
         channels := (n,
           { mspId := c.mspId, name := n, peerPool := c.peerPool,
             orderer := match (resolveCustomOrderer ext c dp n).1 with
               | some o => some o
               | none => c.orderer,
             discoveryProvider := c.discoveryProvider, identity := c.identity,
             fabricV2 := c.fabricV2 }) :: (resolveCustomOrderer ext c dp n).2.channels }) := by
  simp [channelFn, hfresh, hdp]

/-- Lookup finds a freshly consed binding. -/
theorem lookup_cons_self (l : List (String × ChannelHandle)) (n : String) (ch : ChannelHandle) :
    ((n, ch) :: l).lookup n = some ch := by
  simp [List.lookup]

/-- Lookup skips a binding with a different key. -/
theorem lookup_cons_ne (l : List (String × ChannelHandle)) (m n : String) (ch : ChannelHandle)
    (h : m ≠ n) : ((m, ch) :: l).lookup n = l.lookup n := by
  have hb : (n == m) = false := beq_eq_false_iff_ne.mpr (Ne.symm h)
  simp [List.lookup, hb]

/-- One Channel call never replaces or evicts an existing cache entry. -/
theorem channelFn_preserves (ext : Ext) (c : CoreState) (m : String) (ch1 : ChannelHandle)
    (s1 : CoreState) (hstep : channelFn ext c m = .ok (ch1, s1)) (n : String)
    (ch : ChannelHandle) (hn : c.channels.lookup n = some ch) :
    s1.channels.lookup n = some ch := by
  cases hl : c.channels.lookup m with
  | some ch0 =>
    rw [channelFn_hit ext c m ch0 hl] at hstep
    simp only [Except.ok.injEq, Prod.mk.injEq] at hstep
    rw [← hstep.2]
    exact hn
  | none =>
    have hmn : m ≠ n := by
      intro he
      rw [he, hn] at hl
      exact Option.noConfusion hl
    cases hdp : c.discoveryProvider with
    | none => simp [channelFn, hl, hdp] at hstep
    | some dp =>
      rw [channelFn_miss ext c m dp hl hdp] at hstep
      simp only [Except.ok.injEq, Prod.mk.injEq] at hstep
      rw [← hstep.2]
      simp only []
      rw [lookup_cons_ne _ m n _ hmn, (resolveCustomOrderer_state ext c dp m).1]
      exact hn

/-- No sequence of Channel calls replaces or evicts an existing cache
entry. -/
theorem channelCalls_preserves (ext : Ext) (n : String) (ch : ChannelHandle) :
    ∀ (ms : List String) (c s2 : CoreState), channelCalls ext c ms = .ok s2 →
      c.channels.lookup n = some ch → s2.channels.lookup n = some ch
  | [], c, s2, hrun, hn => by
      simp only [channelCalls, Except.ok.injEq] at hrun
      rw [← hrun]
      exact hn
  | m :: ms, c, s2, hrun, hn => by
      unfold channelCalls at hrun
      cases hstep : channelFn ext c m with
      | error p => rw [hstep] at hrun; exact absurd hrun (by simp)
      | ok pr =>
        rw [hstep] at hrun
        exact channelCalls_preserves ext n ch ms pr.2 s2 hrun
          (channelFn_preserves ext c m pr.1 pr.2 (by rw [hstep]) n ch hn)

/-- If the options before opt succeed and opt fails, application of the whole
list fails with the error of opt, whatever follows. -/
theorem applyOpts_append_error :
    ∀ (l1 : List CoreOpt) (opt : CoreOpt) (l2 : List CoreOpt) (c c1 : CoreState) (e : Err),
      applyOpts l1 c = .ok c1 → opt c1 = .error e →
      applyOpts (l1 ++ opt :: l2) c = .error e
  | [], opt, l2, c, c1, e, h1, h2 => by
      simp only [applyOpts, Except.ok.injEq] at h1
      subst h1
      simp [applyOpts, h2]
  | o :: rest, opt, l2, c, c1, e, h1, h2 => by
      rw [List.cons_append]
      unfold applyOpts at h1 ⊢
      cases ho : o c with
      | error e0 => rw [ho] at h1; exact absurd h1 (by simp)
      | ok c2 =>
        rw [ho] at h1
        exact applyOpts_append_error rest opt l2 c2 c1 e h1 h2

/-- The fetcher stage leaves the crypto suite unchanged. -/
theorem initFetcher_cs (c : CoreState) : (initFetcher c).cs = c.cs := by
  unfold initFetcher; cases c.fetcher <;> simp

/-- The fetcher stage leaves the config unchanged. -/
theorem initFetcher_config (c : CoreState) : (initFetcher c).config = c.config := by
  unfold initFetcher; cases c.fetcher <;> simp

/-- The fetcher stage leaves the discovery provider unchanged. -/
theorem initFetcher_discoveryProvider (c : CoreState) :
    (initFetcher c).discoveryProvider = c.discoveryProvider := by
  unfold initFetcher; cases c.fetcher <;> simp

/-- C1 (code bug): with the discovery provider unset, the first Channel call
does not log and fall back as the spec claims: the source dereferences the nil
provider interface and panics.  Evaluation of the embedded code at the failing
input: a fully initialized core without a provider, first call for mychannel. -/
theorem channel_nil_provider_panics :
    channelFn extW sNoDp "mychannel" = .error .nilPointerDereference := rfl

/-- C2 (code bug): with gossip discovery configured but no bootstrap
connection, NewCore does abort with no core value, but the error it returns is
nil, not a non-nil MissingDiscoveryConnection error: the source returns
errors.Wrap(err, msg) with err still nil, and Wrap of nil is nil.  Evaluation
at the failing input shows the (nil, nil) result. -/
theorem newCore_gossip_missing_connection_returns_nil_nil :
    (newCore extW "org" (some identW) [optSetConfigGossip]).1.isNone = true ∧
    (newCore extW "org" (some identW) [optSetConfigGossip]).2 = none := ⟨rfl, rfl⟩

/-- C5: during resolution of an uncached channel, if the discovery lookup
returns an error or a result with zero orderer endpoints, the returned handle
is bound to the core default orderer. -/
theorem channel_discovery_error_or_empty_uses_default_orderer (ext : Ext) (s : CoreState) (n : String) (dp : DiscoveryProvider)
    (hfresh : s.channels.lookup n = none) (hdp : s.discoveryProvider = some dp)
    (hdisc : (∃ e, dp.channelLookup n = .error e) ∨
             (∃ d, dp.channelLookup n = .ok d ∧ d.orderers = [])) :
    channelResultOrderer ext s n = .ok s.orderer := by
  have h1 : resolveCustomOrderer ext s dp n = (none, { s with queries := s.queries ++ [n] }) := by
    rcases hdisc with ⟨e, he⟩ | ⟨d, hd, ho⟩
    · exact resolveCustomOrderer_lookup_error ext s dp n e he
    · exact resolveCustomOrderer_no_orderers ext s dp n d hd ho
  rw [channelResultOrderer, channelFn_miss ext s n dp hfresh hdp, h1]
  simp [Except.map]

/-- Witness for C5 at a concrete core whose provider returns zero orderer
endpoints. -/
theorem channel_discovery_error_or_empty_uses_default_orderer_witness :
    sDpEmpty.channels.lookup "mychannel" = none ∧
    sDpEmpty.discoveryProvider = some dpEmpty ∧
    channelResultOrderer extW sDpEmpty "mychannel" = .ok sDpEmpty.orderer :=
  ⟨rfl, rfl, channel_discovery_error_or_empty_uses_default_orderer extW sDpEmpty "mychannel" dpEmpty rfl rfl
    (Or.inr ⟨{ channelName := "mychannel", orderers := [] }, rfl, rfl⟩)⟩

/-- C3 counterexample: when only the connection build fails while orderer
construction over the resulting nil connection succeeds, the call does not fall
back to the default orderer: it binds a freshly built channel-specific orderer
wrapping the nil connection. -/
theorem channel_build_failure_binds_custom_orderer_cex :
    channelResultOrderer extBuildFails sDpOne "mychannel" =
      .ok (some { id := 1, conn := none }) ∧
    sDpOne.orderer = some { id := 0, conn := none } ∧
    channelResultOrderer extBuildFails sDpOne "mychannel" ≠ .ok sDpOne.orderer :=
  ⟨rfl, rfl, by
    intro h
    rw [show channelResultOrderer extBuildFails sDpOne "mychannel" =
          .ok (some { id := 1, conn := none }) from rfl] at h
    rw [show sDpOne.orderer = some { id := 0, conn := none } from rfl] at h
    simp at h⟩

/-- C3 (amended): during resolution of an uncached channel with a non-empty
discovered orderer endpoint list, the call never aborts, and it falls back to
the default orderer exactly when the orderer construction over the connection
value actually passed (nil when the build failed) fails; a build failure alone
only makes that connection nil. -/
theorem channel_orderer_construction_failure_falls_back (ext : Ext) (s : CoreState) (n : String)
    (dp : DiscoveryProvider) (d : ChannelDiscovererResult) (e : Err)
    (hfresh : s.channels.lookup n = none) (hdp : s.discoveryProvider = some dp)
    (hlook : dp.channelLookup n = .ok d) (hne : d.orderers ≠ [])
    (hord : ext.ordFromConnErr (connOptOf ext (flattenEndpoints d.orderers)) = some e) :
    channelResultOrderer ext s n = .ok s.orderer := by
  have h1 := resolveCustomOrderer_branch ext s dp n d hlook hne
  rw [hord] at h1
  rw [channelResultOrderer, channelFn_miss ext s n dp hfresh hdp, h1]
  simp [Except.map]

/-- Witness for amended C3: failing orderer construction at a concrete core
falls back to the default orderer. -/
theorem channel_orderer_construction_failure_falls_back_witness :
    extOrdFails.ordFromConnErr (connOptOf extOrdFails (flattenEndpoints [epOne])) =
      some (.extErr "broadcast client failed") ∧
    channelResultOrderer extOrdFails sDpOne "mychannel" = .ok sDpOne.orderer :=
  ⟨rfl, channel_orderer_construction_failure_falls_back extOrdFails sDpOne "mychannel" dpOne
    { channelName := "mychannel", orderers := [epOne] } (.extErr "broadcast client failed")
    rfl rfl rfl (by simp) rfl⟩

/-- C6: when discovery returns at least one orderer endpoint, each with at
least one address, and both the connection build and the orderer construction
succeed, the returned handle binds the freshly allocated channel-specific
orderer built over exactly the in-order flattening of every endpoint address
list, and that orderer is distinct from the core default. -/
theorem channel_override_binds_custom_orderer (ext : Ext) (s : CoreState) (n : String)
    (dp : DiscoveryProvider) (d : ChannelDiscovererResult)
    (hfresh : s.channels.lookup n = none) (hdp : s.discoveryProvider = some dp)
    (hlook : dp.channelLookup n = .ok d) (hne : d.orderers ≠ [])
    (hall : ∀ ep ∈ d.orderers, ep.hostAddresses ≠ [])
    (hconn : ext.grpcConnErr (flattenEndpoints d.orderers) = none)
    (hord : ext.ordFromConnErr (some { cfgs := flattenEndpoints d.orderers }) = none)
    (hwf : ∀ o, s.orderer = some o → o.id < s.nextId) :
    channelResultOrderer ext s n =
      .ok (some { id := s.nextId, conn := some { cfgs := flattenEndpoints d.orderers } }) ∧
    some ({ id := s.nextId, conn := some { cfgs := flattenEndpoints d.orderers } } : Orderer)
      ≠ s.orderer ∧
    flattenEndpoints d.orderers =
      (d.orderers.map fun ep => ep.hostAddresses.map
        fun ha => ({ host := ha.address, tls := ha.tlsSettings } : ConnectionConfig)).flatten := by
  have hc : connOptOf ext (flattenEndpoints d.orderers) =
      some { cfgs := flattenEndpoints d.orderers } := by
    simp [connOptOf, hconn]
  have h1 := resolveCustomOrderer_branch ext s dp n d hlook hne
  rw [hc, hord] at h1
  refine ⟨?_, ?_, flattenEndpoints_eq_flatten d.orderers⟩
  · rw [channelResultOrderer, channelFn_miss ext s n dp hfresh hdp, h1]
    simp [Except.map]
  · intro hcontra
    cases ho : s.orderer with
    | none => rw [ho] at hcontra; exact Option.noConfusion hcontra
    | some o =>
      rw [ho] at hcontra
      have hlt := hwf o ho
      injection hcontra with h2
      rw [← h2] at hlt
      simp at hlt

/-- Witness for C6 at a concrete core with one discovered endpoint. -/
theorem channel_override_binds_custom_orderer_witness :
    (∀ ep ∈ [epOne], ep.hostAddresses ≠ []) ∧
    channelResultOrderer extW sDpOne "mychannel" =
      .ok (some { id := sDpOne.nextId,
                  conn := some { cfgs := flattenEndpoints [epOne] } }) ∧
    some ({ id := sDpOne.nextId, conn := some { cfgs := flattenEndpoints [epOne] } } : Orderer)
      ≠ sDpOne.orderer :=
  ⟨by decide,
   (channel_override_binds_custom_orderer extW sDpOne "mychannel" dpOne { channelName := "mychannel", orderers := [epOne] }
      rfl rfl rfl (by simp) (by decide) rfl rfl
      (by
        intro o ho
        rw [show sDpOne.orderer = some { id := 0, conn := none } from rfl] at ho
        injection ho with h
        rw [← h]
        decide)).1,
   (channel_override_binds_custom_orderer extW sDpOne "mychannel" dpOne { channelName := "mychannel", orderers := [epOne] }
      rfl rfl rfl (by simp) (by decide) rfl rfl
      (by
        intro o ho
        rw [show sDpOne.orderer = some { id := 0, conn := none } from rfl] at ho
        injection ho with h
        rw [← h]
        decide)).2.1⟩

/-- C10: when discovery returns a non-empty orderer endpoint list but every
endpoint has an empty address list, the flattening is empty and the connection
build is still attempted with zero descriptors; the custom branch is entered
and falls back to the default orderer only if the orderer construction over
the passed connection fails. -/
theorem channel_all_empty_addresses_still_builds (ext : Ext) (s : CoreState) (n : String)
    (dp : DiscoveryProvider) (d : ChannelDiscovererResult)
    (hfresh : s.channels.lookup n = none) (hdp : s.discoveryProvider = some dp)
    (hlook : dp.channelLookup n = .ok d) (hne : d.orderers ≠ [])
    (hempty : ∀ ep ∈ d.orderers, ep.hostAddresses = []) :
    flattenEndpoints d.orderers = [] ∧
    channelResultConnBuilds ext s n = .ok (s.connBuilds ++ [[]]) ∧
    (ext.ordFromConnErr (connOptOf ext []) = none →
      channelResultOrderer ext s n = .ok (some { id := s.nextId, conn := connOptOf ext [] })) ∧
    (∀ e, ext.ordFromConnErr (connOptOf ext []) = some e →
      channelResultOrderer ext s n = .ok s.orderer) := by
  have hfe : flattenEndpoints d.orderers = [] :=
    flattenEndpoints_nil_of_empty d.orderers hempty
  have h1 := resolveCustomOrderer_branch ext s dp n d hlook hne
  rw [hfe] at h1
  refine ⟨hfe, ?_, ?_, ?_⟩
  · cases ho : ext.ordFromConnErr (connOptOf ext []) with
    | none =>
      rw [ho] at h1
      rw [channelResultConnBuilds, channelFn_miss ext s n dp hfresh hdp, h1]
      simp [Except.map]
    | some e =>
      rw [ho] at h1
      rw [channelResultConnBuilds, channelFn_miss ext s n dp hfresh hdp, h1]
      simp [Except.map]
  · intro ho
    rw [ho] at h1
    rw [channelResultOrderer, channelFn_miss ext s n dp hfresh hdp, h1]
    simp [Except.map]
  · intro e ho
    rw [ho] at h1
    rw [channelResultOrderer, channelFn_miss ext s n dp hfresh hdp, h1]
    simp [Except.map]

/-- Witness for C10 at a concrete core whose provider returns one endpoint
with no addresses. -/
theorem channel_all_empty_addresses_still_builds_witness :
    (∀ ep ∈ [epNoAddr], ep.hostAddresses = []) ∧
    flattenEndpoints [epNoAddr] = [] ∧
    channelResultConnBuilds extW sDpNoAddr "mychannel" = .ok (sDpNoAddr.connBuilds ++ [[]]) :=
  ⟨by decide, (channel_all_empty_addresses_still_builds extW sDpNoAddr "mychannel" dpNoAddr
      { channelName := "mychannel", orderers := [epNoAddr] }
      rfl rfl rfl (by simp) (by decide)).1,
    (channel_all_empty_addresses_still_builds extW sDpNoAddr "mychannel" dpNoAddr
      { channelName := "mychannel", orderers := [epNoAddr] }
      rfl rfl rfl (by simp) (by decide)).2.1⟩

/-- C7: after a successful Channel call for n, a second call returns the same
cached handle and leaves the state unchanged, the discovery provider was
queried at most once more for n than before, and the cache entry for n
survives any further sequence of Channel calls unchanged. -/
theorem channel_idempotent_cached (ext : Ext) (s : CoreState) (n : String)
    (ch : ChannelHandle) (s1 : CoreState) (h : channelFn ext s n = .ok (ch, s1)) :
    channelFn ext s1 n = .ok (ch, s1) ∧
    s1.queries.count n ≤ s.queries.count n + 1 ∧
    ∀ (ms : List String) (s2 : CoreState), channelCalls ext s1 ms = .ok s2 →
      s2.channels.lookup n = some ch := by
  have key : s1.channels.lookup n = some ch ∧
      s1.queries.count n ≤ s.queries.count n + 1 := by
    cases hl : s.channels.lookup n with
    | some ch0 =>
      rw [channelFn_hit ext s n ch0 hl] at h
      simp only [Except.ok.injEq, Prod.mk.injEq] at h
      obtain ⟨h1, h2⟩ := h
      rw [← h2, ← h1]
      exact ⟨hl, Nat.le_succ _⟩
    | none =>
      cases hdp : s.discoveryProvider with
      | none => simp [channelFn, hl, hdp] at h
      | some dp =>
        rw [channelFn_miss ext s n dp hl hdp] at h
        simp only [Except.ok.injEq, Prod.mk.injEq] at h
        obtain ⟨h1, h2⟩ := h
        constructor
        · rw [← h2, ← h1]
          exact lookup_cons_self _ n _
        · rw [← h2]
          have hq := (resolveCustomOrderer_state ext s dp n).2.1
          simp only [hq]
          simp [List.count_append]
  obtain ⟨hlk, hcnt⟩ := key
  exact ⟨channelFn_hit ext s1 n ch hlk, hcnt,
    fun ms s2 hrun => channelCalls_preserves ext n ch ms s1 s2 hrun hlk⟩

/-- Witness for C7 at a concrete core: two calls return the identical handle
and state. -/
theorem channel_idempotent_cached_witness :
    channelFn extW sDpEmpty "mychannel" = .ok (chW, sDpEmpty1) ∧
    channelFn extW sDpEmpty1 "mychannel" = .ok (chW, sDpEmpty1) :=
  ⟨rfl, (channel_idempotent_cached extW sDpEmpty "mychannel" chW sDpEmpty1 rfl).1⟩

/-- C8: options are applied strictly in order; when the options before opt
succeed and opt fails, NewCore aborts with that error wrapped with context and
the remaining options are irrelevant. -/
theorem newCore_options_in_order_first_error_aborts (ext : Ext) (mspId : String) (ident : Option Identity)
    (l1 : List CoreOpt) (opt : CoreOpt) (l2 : List CoreOpt) (c1 : CoreState) (e : Err)
    (h1 : applyOpts l1 (initialCore mspId) = .ok c1) (h2 : opt c1 = .error e) :
    newCore ext mspId ident (l1 ++ opt :: l2) =
      (none, some (.wrapped "failed to apply option" e)) := by
  unfold newCore
  rw [applyOpts_append_error l1 opt l2 (initialCore mspId) c1 e h1 h2]

/-- Witness for C8 with a concrete failing option. -/
theorem newCore_options_in_order_first_error_aborts_witness :
    applyOpts [optNop] (initialCore "org") = .ok (initialCore "org") ∧
    optBoom (initialCore "org") = .error (.extErr "boom") ∧
    newCore extW "org" (some identW) ([optNop] ++ optBoom :: [optNop]) =
      (none, some (.wrapped "failed to apply option" (.extErr "boom"))) :=
  ⟨rfl, rfl, newCore_options_in_order_first_error_aborts extW "org" (some identW) [optNop] optBoom [optNop]
    (initialCore "org") (.extErr "boom") rfl rfl⟩

/-- C9: with no pre-supplied suite and a present config whose crypto type is
empty, NewCore substitutes the built-in ECDSA default before the registry
lookup, so the resulting core holds the suite registered for the default type
and the defaulted crypto config. -/
theorem newCore_empty_crypto_type_uses_default (ext : Ext) (mspId : String) (ident : Identity)
    (opts : List CoreOpt) (c0 : CoreState) (cfg : Config) (dp : DiscoveryProvider)
    (pp : PeerPool) (o0 : Orderer) (suite : CryptoSuite)
    (happly : applyOpts opts (initialCore mspId) = .ok c0)
    (hcs : c0.cs = none) (hcfg : c0.config = some cfg) (htype : cfg.crypto.type = "")
    (hdp : c0.discoveryProvider = some dp) (hpp : c0.peerPool = some pp)
    (hord : c0.orderer = some o0)
    (hsuite : ext.getSuite ecdsaDefaultConfig.type ecdsaDefaultConfig.options = .ok suite) :
    (newCore ext mspId (some ident) opts).2 = none ∧
    ((newCore ext mspId (some ident) opts).1.map CoreState.cs) = some (some suite) ∧
    ((newCore ext mspId (some ident) opts).1.map CoreState.config) =
      some (some { cfg with crypto := ecdsaDefaultConfig }) := by
  simp [newCore, happly, initCrypto, hcs, hcfg, htype, hsuite, initPeerPool, hpp,
    initDiscovery, hdp, initOrderer, hord, initFetcher_cs, initFetcher_config]

/-- Witness for C9 at a concrete empty-crypto-type configuration. -/
theorem newCore_empty_crypto_type_uses_default_witness :
    applyOpts [optPresetEmptyCrypto] (initialCore "org") =
      .ok { initialCore "org" with
              config := some { crypto := { type := "" } },
              discoveryProvider := some dpEmpty, peerPool := some [],
              orderer := some { id := 0, conn := none } } ∧
    extW.getSuite ecdsaDefaultConfig.type ecdsaDefaultConfig.options = .ok { tag := 1 } ∧
    ((newCore extW "org" (some identW) [optPresetEmptyCrypto]).1.map CoreState.cs) =
      some (some { tag := 1 }) :=
  ⟨rfl, rfl,
   (newCore_empty_crypto_type_uses_default extW "org" identW [optPresetEmptyCrypto] _ { crypto := { type := "" } } dpEmpty []
     { id := 0, conn := none } { tag := 1 } rfl rfl rfl rfl rfl rfl rfl rfl).2.1⟩

/-- C4 counterexample: a present configuration whose discovery type is empty
makes NewCore return an unknown-discovery-type error (construction aborts),
rather than leaving the provider unset without error. -/
theorem newCore_empty_discovery_type_errors_cex :
    (newCore extW "org" (some identW) [optSetConfigEmptyDisc]).1.isNone = true ∧
    (newCore extW "org" (some identW) [optSetConfigEmptyDisc]).2 =
      some (Err.unknownDiscoveryType "") := ⟨rfl, rfl⟩

/-- C4 (amended): the discovery provider remains unset without error only
when configuration is entirely absent (crypto suite and peer pool having been
pre-supplied); when configuration is present with an empty discovery type,
NewCore aborts with an unknown-discovery-type error. -/
theorem newCore_discovery_provider_unset_behavior (ext : Ext) (mspId : String) (ident : Identity)
    (opts : List CoreOpt) (c0 : CoreState) (suite : CryptoSuite) (pp : PeerPool)
    (happly : applyOpts opts (initialCore mspId) = .ok c0)
    (hdp : c0.discoveryProvider = none) (hcs : c0.cs = some suite)
    (hpp : c0.peerPool = some pp) :
    (c0.config = none →
      (newCore ext mspId (some ident) opts).2 = none ∧
      ((newCore ext mspId (some ident) opts).1.map CoreState.discoveryProvider) =
        some none) ∧
    (∀ cfg, c0.config = some cfg → cfg.discovery.type = "" →
      newCore ext mspId (some ident) opts = (none, some (.unknownDiscoveryType ""))) := by
  constructor
  · intro hcfg
    cases hoo : c0.orderer with
    | none =>
      simp [newCore, happly, initCrypto, hcs, initPeerPool, hpp, initDiscovery, hdp, hcfg,
        initOrderer, hoo, initFetcher_discoveryProvider]
    | some o0 =>
      simp [newCore, happly, initCrypto, hcs, initPeerPool, hpp, initDiscovery, hdp, hcfg,
        initOrderer, hoo, initFetcher_discoveryProvider]
  · intro cfg hcfg htype
    simp [newCore, happly, initCrypto, hcs, initPeerPool, hpp, initDiscovery, hdp, hcfg, htype,
      localConfigServiceDiscoveryType, gossipServiceDiscoveryType]

/-- Witness for amended C4: absent configuration leaves the provider unset
and yields no error. -/
theorem newCore_discovery_provider_unset_behavior_witness :
    applyOpts [optPreset] (initialCore "org") =
      .ok { initialCore "org" with cs := some { tag := 1 }, peerPool := some [] } ∧
    (newCore extW "org" (some identW) [optPreset]).2 = none ∧
    ((newCore extW "org" (some identW) [optPreset]).1.map CoreState.discoveryProvider) =
      some none :=
  ⟨rfl,
   ((newCore_discovery_provider_unset_behavior extW "org" identW [optPreset] _ { tag := 1 } [] rfl rfl rfl rfl).1 rfl).1,
   ((newCore_discovery_provider_unset_behavior extW "org" identW [optPreset] _ { tag := 1 } [] rfl rfl rfl rfl).1 rfl).2⟩

end Hlf
